import Mathlib

/-!
Shallow embedding of the bevy_prototype_postprocess "uber" pass pipeline.

Sources embedded: src/components.rs (effect configuration data model) and
src/render.rs (uniform packing, pipeline/bind-group layout construction,
the Preparation and Queue stages, the render-graph node UberPassNode and
the DrawUber draw function).

Modeling conventions:
- f32 values are identified by their IEEE-754 bit pattern; the embedded
  code only ever copies f32 fields (no float arithmetic anywhere), so this
  is exact.
- GPU objects (textures, bind groups, pipelines) are identified by Nat ids;
  the RenderDevice's create calls hand out fresh ids in creation order.
- Commands recorded on the command encoder / render pass are reified as a
  GpuCommand list, in recording order.
- Entities of the render world are Nat; ECS component lookups are
  functions into Option.
-/

namespace Postprocess

/-- An f32 value, identified by its IEEE-754 bit pattern.  The embedded
sources only copy f32 fields, never compute with them. -/
structure F32 where
  bits : Nat
deriving DecidableEq

/-- Bit pattern of 0.0f32. -/
def f32Zero : F32 := ⟨0⟩

/-- Bit pattern of 1.0f32. -/
def f32One : F32 := ⟨0x3F800000⟩

/-- glam Vec3 (three f32 components). -/
structure Vec3 where
  x : F32
  y : F32
  z : F32
deriving DecidableEq

/-- glam Vec4 (four f32 components). -/
structure Vec4 where
  x : F32
  y : F32
  z : F32
  w : F32
deriving DecidableEq

/-- Vec4::xyz() truncation to Vec3. -/
def Vec4.xyz (v : Vec4) : Vec3 := ⟨v.x, v.y, v.z⟩

/-- glam Mat3, column major: x_axis, y_axis, z_axis are the columns. -/
structure Mat3 where
  x_axis : Vec3
  y_axis : Vec3
  z_axis : Vec3
deriving DecidableEq

/-- Mat3::from_cols. -/
def Mat3.from_cols (x y z : Vec3) : Mat3 := ⟨x, y, z⟩

/-- Mat3::transpose. -/
def Mat3.transpose (m : Mat3) : Mat3 :=
  ⟨⟨m.x_axis.x, m.y_axis.x, m.z_axis.x⟩,
   ⟨m.x_axis.y, m.y_axis.y, m.z_axis.y⟩,
   ⟨m.x_axis.z, m.y_axis.z, m.z_axis.z⟩⟩

/-- Row 0 of a column-major Mat3 (first component of each column). -/
def Mat3.row0 (m : Mat3) : Vec3 := ⟨m.x_axis.x, m.y_axis.x, m.z_axis.x⟩

/-- Row 1 of a column-major Mat3. -/
def Mat3.row1 (m : Mat3) : Vec3 := ⟨m.x_axis.y, m.y_axis.y, m.z_axis.y⟩

/-- Row 2 of a column-major Mat3. -/
def Mat3.row2 (m : Mat3) : Vec3 := ⟨m.x_axis.z, m.y_axis.z, m.z_axis.z⟩

/-- glam Mat3::IDENTITY. -/
def Mat3.identity : Mat3 :=
  ⟨⟨f32One, f32Zero, f32Zero⟩, ⟨f32Zero, f32One, f32Zero⟩, ⟨f32Zero, f32Zero, f32One⟩⟩

/-- bevy Color, as the rgba components used by the sources (the named
constants RED/GREEN/BLUE/WHITE and the Vec4 conversion). -/
structure Color where
  red : F32
  green : F32
  blue : F32
  alpha : F32
deriving DecidableEq

/-- Color::RED = rgb(1, 0, 0). -/
def Color.RED : Color := ⟨f32One, f32Zero, f32Zero, f32One⟩

/-- Color::GREEN = rgb(0, 1, 0). -/
def Color.GREEN : Color := ⟨f32Zero, f32One, f32Zero, f32One⟩

/-- Color::BLUE = rgb(0, 0, 1). -/
def Color.BLUE : Color := ⟨f32Zero, f32Zero, f32One, f32One⟩

/-- Color::WHITE = rgb(1, 1, 1). -/
def Color.WHITE : Color := ⟨f32One, f32One, f32One, f32One⟩

/-- Vec4::from(Color): the rgba components in order. -/
def Vec4.fromColor (c : Color) : Vec4 := ⟨c.red, c.green, c.blue, c.alpha⟩

/-- components.rs: Bloom configuration. -/
structure Bloom where
  threshold : F32
  intensity : F32
  scatter : F32
  tint : Color
  clamp : F32
deriving DecidableEq

/-- components.rs: ChannelMixing configuration (fields in declaration
order: red, blue, green). -/
structure ChannelMixing where
  red : Color
  blue : Color
  green : Color
deriving DecidableEq

/-- ChannelMixing::default(): red = RED, blue = BLUE, green = GREEN. -/
def ChannelMixing.default : ChannelMixing := ⟨Color.RED, Color.BLUE, Color.GREEN⟩

/-- components.rs From(ChannelMixing) for Mat3: the columns are the xyz
parts of red, blue, green (in that order), then the matrix is transposed. -/
def mat3FromChannelMixing (value : ChannelMixing) : Mat3 :=
  (Mat3.from_cols (Vec4.fromColor value.red).xyz (Vec4.fromColor value.blue).xyz
      (Vec4.fromColor value.green).xyz).transpose

/-- render.rs UberFlags: BLOOM = 1 << 0. -/
def UberFlags.BLOOM : Nat := 1 <<< 0

/-- render.rs UberFlags: NORMAL_TONEMAPPING = 1 << 1. -/
def UberFlags.NORMAL_TONEMAPPING : Nat := 1 <<< 1

/-- render.rs UberFlags: ACES_TONEMAPPING = 1 << 2. -/
def UberFlags.ACES_TONEMAPPING : Nat := 1 <<< 2

/-- render.rs UberFlags: CHANNEL_MIXING = 1 << 3. -/
def UberFlags.CHANNEL_MIXING : Nat := 1 <<< 3

/-- A flags word assembled by bitflags union from the four effect bits. -/
def UberFlags.ofActive (bloom normal aces mixing : Bool) : Nat :=
  (if bloom then UberFlags.BLOOM else 0) |||
  (if normal then UberFlags.NORMAL_TONEMAPPING else 0) |||
  (if aces then UberFlags.ACES_TONEMAPPING else 0) |||
  (if mixing then UberFlags.CHANNEL_MIXING else 0)

/-- render.rs UberBloom: the packed bloom parameter block. -/
structure UberBloom where
  threshold : F32
  intensity : F32
  scatter : F32
  tint : Vec4
  clamp : F32
deriving DecidableEq

/-- render.rs From(Bloom) for UberBloom: copy every field, converting the
tint Color to Vec4. -/
def uberBloomFromBloom (value : Bloom) : UberBloom :=
  ⟨value.threshold, value.intensity, value.scatter, Vec4.fromColor value.tint, value.clamp⟩

/-- render.rs UberChannelMixing: the packed channel-mixing block. -/
structure UberChannelMixing where
  matrix : Mat3
deriving DecidableEq

/-- render.rs From(ChannelMixing) for UberChannelMixing. -/
def uberChannelMixingFromChannelMixing (value : ChannelMixing) : UberChannelMixing :=
  ⟨mat3FromChannelMixing value⟩

/-- render.rs UberUniform: flags word, bloom block, channel-mixing block.
The flags word is the u32 bit pattern of the UberFlags bitflags. -/
structure UberUniform where
  flags : Nat
  bloom : UberBloom
  channel_mixing : UberChannelMixing
deriving DecidableEq

/-! Byte-layout calculators.  Two layouts matter for the bind-group
layout built in UberEffectShaders::from_world: the std140 layout produced
by crevice AsStd140 (which is what UniformVec actually writes to the
uniform buffer), and the in-memory repr(Rust) layout measured by
mem::size_of (which is what the code passes as min_binding_size). -/

/-- Round n up to the next multiple of a. -/
def roundUpTo (n a : Nat) : Nat := (n + a - 1) / a * a

/-- End offset after placing fields (size, align) in order, each at the
next offset aligned to its alignment. -/
def packFields : List (Nat × Nat) → Nat → Nat
  | [], off => off
  | f :: rest, off => packFields rest (roundUpTo off f.2 + f.1)

/-- (size, alignment) of an std140 struct with the given (size, alignment)
fields, per the GLSL std140 rules implemented by crevice: the struct
alignment is the max field alignment rounded up to 16, fields are placed
in declaration order at aligned offsets, and the struct size is padded to
the struct alignment. -/
def std140Struct (fields : List (Nat × Nat)) : Nat × Nat :=
  let al := roundUpTo (fields.foldl (fun m f => max m f.2) 1) 16
  (roundUpTo (packFields fields 0) al, al)

/-- std140 f32: 4 bytes, 4-aligned. -/
def std140F32 : Nat × Nat := (4, 4)

/-- std140 u32: 4 bytes, 4-aligned. -/
def std140U32 : Nat × Nat := (4, 4)

/-- std140 vec4: 16 bytes, 16-aligned. -/
def std140Vec4 : Nat × Nat := (16, 16)

/-- std140 vec3: 12 bytes of data, 16-aligned. -/
def std140Vec3 : Nat × Nat := (12, 16)

/-- std140 Mat3: three vec4-aligned vec3 columns (3 padded 4-float rows of
the uploaded block). -/
def std140Mat3 : Nat × Nat := std140Struct [std140Vec3, std140Vec3, std140Vec3]

/-- Std140UberFlags: the std140 form of the one-u32 bitflags struct
(crevice derives AsStd140 for it as a nested struct). -/
def std140UberFlags : Nat × Nat := std140Struct [std140U32]

/-- Std140UberBloom: threshold, intensity, scatter, tint, clamp. -/
def std140UberBloom : Nat × Nat :=
  std140Struct [std140F32, std140F32, std140F32, std140Vec4, std140F32]

/-- Std140UberChannelMixing: one Mat3. -/
def std140UberChannelMixing : Nat × Nat := std140Struct [std140Mat3]

/-- Std140UberUniform: the (size, alignment) of the block UniformVec
writes to the uniform buffer (crevice as_std140 of UberUniform). -/
def std140UberUniform : Nat × Nat :=
  std140Struct [std140UberFlags, std140UberBloom, std140UberChannelMixing]

/-- Insert a field into a list sorted by decreasing alignment, after every
field of greater or equal alignment (keeps declaration order on ties). -/
def insertFieldByAlign (f : Nat × Nat) : List (Nat × Nat) → List (Nat × Nat)
  | [] => [f]
  | g :: rest => if g.2 < f.2 then f :: g :: rest else g :: insertFieldByAlign f rest

/-- Sort fields by decreasing alignment, stably. -/
def rustSortFields (fields : List (Nat × Nat)) : List (Nat × Nat) :=
  fields.foldl (fun acc f => insertFieldByAlign f acc) []

/-- (size, alignment) of a repr(Rust) struct as laid out by rustc's default
algorithm: fields sorted by decreasing alignment (ties keep declaration
order), packed at aligned offsets, size rounded up to the struct alignment
(the max field alignment). -/
def rustStruct (fields : List (Nat × Nat)) : Nat × Nat :=
  let al := fields.foldl (fun m f => max m f.2) 1
  (roundUpTo (packFields (rustSortFields fields) 0) al, al)

/-- Rust f32: 4 bytes, 4-aligned. -/
def rustF32 : Nat × Nat := (4, 4)

/-- glam Vec4 (SIMD 128-bit vector): 16 bytes, 16-aligned. -/
def rustVec4 : Nat × Nat := (16, 16)

/-- glam Mat3 (three scalar Vec3): 36 bytes, 4-aligned. -/
def rustMat3 : Nat × Nat := (36, 4)

/-- UberFlags: a bitflags newtype over u32. -/
def rustUberFlags : Nat × Nat := (4, 4)

/-- mem::size_of / align_of of UberBloom. -/
def rustUberBloom : Nat × Nat :=
  rustStruct [rustF32, rustF32, rustF32, rustVec4, rustF32]

/-- mem::size_of / align_of of UberChannelMixing. -/
def rustUberChannelMixing : Nat × Nat := rustStruct [rustMat3]

/-- mem::size_of / align_of of UberUniform: this size (not the std140
size) is what from_world passes to BufferSize::new as min_binding_size. -/
def rustUberUniform : Nat × Nat :=
  rustStruct [rustUberFlags, rustUberBloom, rustUberChannelMixing]

/-! Bind-group layout built in UberEffectShaders::from_world. -/

/-- wgpu BufferBindingType. -/
inductive BufferBindingType
  | uniform
  | storage
deriving DecidableEq

/-- wgpu ShaderStage visibility flags. -/
structure ShaderStageFlags where
  vertex : Bool
  fragment : Bool
  compute : Bool
deriving DecidableEq

/-- ShaderStage::FRAGMENT: fragment stage only. -/
def ShaderStage.FRAGMENT : ShaderStageFlags := ⟨false, true, false⟩

/-- wgpu BindingType (only the buffer case is used by the source). -/
inductive BindingType
  | buffer (ty : BufferBindingType) (has_dynamic_offset : Bool)
      (min_binding_size : Option Nat)
  | sampler
  | texture
deriving DecidableEq

/-- wgpu BindGroupLayoutEntry. -/
structure BindGroupLayoutEntry where
  binding : Nat
  visibility : ShaderStageFlags
  ty : BindingType
deriving DecidableEq

/-- render.rs UberEffectShaders::from_world, bind group layout entries: a
single uniform-buffer entry at binding 0, fragment visibility, no dynamic
offset, min_binding_size = BufferSize::new(mem::size_of::(UberUniform)). -/
def uberViewLayoutEntries : List BindGroupLayoutEntry :=
  [⟨0, ShaderStage.FRAGMENT,
    BindingType.buffer BufferBindingType.uniform false (some rustUberUniform.1)⟩]

/-! Preparation stage: prepare_uber. -/

/-- Render-world entities. -/
abbrev Entity := Nat

/-- ExtractedView: the per-view fields read by prepare_uber. -/
structure ExtractedView where
  width : Nat
  height : Nat
deriving DecidableEq

/-- wgpu TextureFormat (only R8Unorm is used by the source). -/
inductive TextureFormat
  | r8Unorm
  | other
deriving DecidableEq

/-- wgpu TextureDimension. -/
inductive TextureDimension
  | d1
  | d2
  | d3
deriving DecidableEq

/-- wgpu TextureUsage::SAMPLED bit. -/
def TextureUsage.SAMPLED : Nat := 4

/-- wgpu TextureUsage::RENDER_ATTACHMENT bit. -/
def TextureUsage.RENDER_ATTACHMENT : Nat := 16

/-- wgpu TextureDescriptor, as filled in by prepare_uber. -/
structure TextureDescriptor where
  width : Nat
  height : Nat
  depth_or_array_layers : Nat
  mip_level_count : Nat
  sample_count : Nat
  dimension : TextureDimension
  format : TextureFormat
  usage : Nat
deriving DecidableEq

/-- The descriptor prepare_uber builds for a view's off-screen target:
the view's pixel size, depth 1, one mip, one sample, 2D, R8Unorm,
render-attachment plus sampled usage. -/
def uberTextureDescriptor (view : ExtractedView) : TextureDescriptor :=
  ⟨view.width, view.height, 1, 1, 1, TextureDimension.d2, TextureFormat.r8Unorm,
   TextureUsage.RENDER_ATTACHMENT ||| TextureUsage.SAMPLED⟩

/-- A texture view created from a texture by create_view. -/
structure TextureView where
  texture : Nat
deriving DecidableEq

/-- render.rs ViewUber: the render-side record prepare_uber attaches to a
view (the cached target texture and a view of it). -/
structure ViewUber where
  view_uber_texture : Nat
  view_uber_texture_view : TextureView
deriving DecidableEq

/-- TextureCache::get: return the cached texture id for the descriptor
when one exists, otherwise allocate a fresh id and cache it.  Result:
(texture id, updated cache, next fresh id). -/
def textureCacheGet (cache : List (TextureDescriptor × Nat)) (next : Nat)
    (d : TextureDescriptor) : Nat × List (TextureDescriptor × Nat) × Nat :=
  match cache.find? (fun p => p.1 == d) with
  | some p => (p.2, cache, next)
  | none => (next, cache ++ [(d, next)], next + 1)

/-- The per-view loop of prepare_uber: request the view's target from the
texture cache with uberTextureDescriptor, create a view of the returned
texture, and insert the ViewUber record on the entity.  Returns the final
cache, the next fresh texture id, and the inserted records in view order. -/
def prepareViews : List (Entity × ExtractedView) → List (TextureDescriptor × Nat) → Nat →
    List (TextureDescriptor × Nat) × Nat × List (Entity × ViewUber)
  | [], cache, next => (cache, next, [])
  | v :: rest, cache, next =>
    let r := textureCacheGet cache next (uberTextureDescriptor v.2)
    let r2 := prepareViews rest r.2.1 r.2.2
    (r2.1, r2.2.1, (v.1, ⟨r.1, ⟨r.1⟩⟩) :: r2.2.2)

/-- The mutable state prepare_uber runs against: the UberMeta uniform
staging vector, the shared texture cache, and the device's fresh-id
counter. -/
structure PrepareState where
  uber_meta_uniform : List UberUniform
  texture_cache : List (TextureDescriptor × Nat)
  next_texture_id : Nat

/-- render.rs prepare_uber: reserve_and_clear the UberMeta uniform vector
to capacity 1, push the extracted config as the frame's single packed
block, then set up each view's off-screen target and ViewUber record
(write_to_staging_buffer then stages exactly this vector).  Returns the
final state and the inserted (entity, ViewUber) pairs. -/
def prepare_uber (extracted_uber_config : UberUniform)
    (views : List (Entity × ExtractedView)) (st : PrepareState) :
    PrepareState × List (Entity × ViewUber) :=
  let cleared : List UberUniform := []
  let staged := cleared ++ [extracted_uber_config]
  let r := prepareViews views st.texture_cache st.next_texture_id
  (⟨staged, r.1, r.2.1⟩, r.2.2)

/-! Queue stage: queue_meshes. -/

/-- render_phase Drawable: the draw-function id, the per-view draw key,
and the sort key. -/
structure Drawable where
  draw_function : Nat
  draw_key : Nat
  sort_key : Nat
deriving DecidableEq

/-- The per-view loop of queue_meshes at enumerate index i: create a fresh
per-view bind group (bind-group ids are handed out in creation order; the
shared config bind group was created first with id bg), insert it on the
entity, and add one Drawable with draw_key = i and sort_key = 0 to the
view's phase.  Returns the inserted (entity, bind group) pairs and the
updated phases, in view order. -/
def queueViews (draw_uber bg : Nat) :
    Nat → List (Entity × List Drawable) →
    List (Entity × Nat) × List (Entity × List Drawable)
  | _, [] => ([], [])
  | i, v :: rest =>
    let r := queueViews draw_uber bg (i + 1) rest
    ((v.1, bg + 1 + i) :: r.1, (v.1, v.2 ++ [⟨draw_uber, i, 0⟩]) :: r.2)

/-- The effect of one queue_meshes run: the UberConfigBindGroup resource
inserted (if any), the UberViewBindGroup components inserted, and the
per-view phases afterwards. -/
structure QueueOut where
  uber_config_bind_group : Option Nat
  view_bind_groups : List (Entity × Nat)
  phases : List (Entity × List Drawable)
deriving DecidableEq

/-- render.rs queue_meshes: return early doing nothing when the view
uniform store has no entries; otherwise create the shared config bind
group (the first bind group created, id next_bg), then per view in
enumeration order one fresh bind group and one phase entry. -/
def queue_meshes (view_meta_uniforms_len : Nat) (draw_uber next_bg : Nat)
    (views : List (Entity × List Drawable)) : QueueOut :=
  if view_meta_uniforms_len < 1 then ⟨none, [], views⟩
  else
    let r := queueViews draw_uber next_bg 0 views
    ⟨some next_bg, r.1, r.2⟩

/-! Render node UberPassNode and draw function DrawUber. -/

/-- Commands recorded on the command encoder / tracked render pass, in
recording order. -/
inductive GpuCommand
  | writeUniformBuffer (contents : List UberUniform)
  | beginRenderPass (target : Nat) (clearToBlack : Bool)
  | setRenderPipeline (pipeline : Nat)
  | setBindGroup (index : Nat) (bind_group : Nat) (offsets : List Nat)
  | draw (vertexStart vertexEnd instanceStart instanceEnd : Nat)
deriving DecidableEq

/-- Whether a command is a draw call. -/
def isDrawCommand : GpuCommand → Bool
  | GpuCommand.draw _ _ _ _ => true
  | _ => false

/-- The system parameters DrawUber reads from the render world: the
pipeline, the shared UberConfigBindGroup resource, and per view the
ViewUniformOffset and UberViewBindGroup components. -/
structure DrawWorld where
  pipeline : Nat
  uber_config_bind_group : Nat
  view_params : Entity → Option (Nat × Nat)

/-- render.rs DrawUber::draw: look up the view's uniform offset and bind
group (the source unwraps; a missing view is the panic, modeled as none),
then record: set the pipeline, bind group 0 with the view's dynamic
uniform offset as the only offset, bind group 1 with no offsets, and a
non-indexed draw of vertices 0..3, instances 0..1. -/
def DrawUber.draw (w : DrawWorld) (view : Entity) : Option (List GpuCommand) :=
  match w.view_params view with
  | none => none
  | some p =>
    some [GpuCommand.setRenderPipeline w.pipeline,
          GpuCommand.setBindGroup 0 p.2 [p.1],
          GpuCommand.setBindGroup 1 w.uber_config_bind_group [],
          GpuCommand.draw 0 3 0 1]

/-- render_graph NodeRunError (the error get_input_entity propagates). -/
inductive NodeRunError
  | inputSlotError
deriving DecidableEq

/-- The render-graph context of one node invocation: the value the graph
resolved for the node's IN_VIEW slot, none when the slot cannot be
resolved to a view entity (get_input_entity then fails). -/
structure RenderGraphContext where
  input_view : Option Entity

/-- RenderGraphContext::get_input_entity: the view entity the graph
supplies, or a NodeRunError propagated with the question-mark operator. -/
def getInputEntity (graph : RenderGraphContext) : Except NodeRunError Entity :=
  match graph.input_view with
  | some e => Except.ok e
  | none => Except.error NodeRunError.inputSlotError

/-- The render world as read by UberPassNode::run: the UberMeta staging
vector, the per-entity ViewUber and RenderPhase(UberPhase) components,
the id DrawFunctions registered for DrawUber, and DrawUber's parameters. -/
structure NodeWorld where
  uber_meta_uniform : List UberUniform
  view_uber : Entity → Option ViewUber
  uber_phase : Entity → Option (List Drawable)
  draw_uber_function : Nat
  draw_world : DrawWorld

/-- Dispatch one Drawable through the draw-functions registry.  DrawUber
is the only draw function this crate registers for the uber phase; an
unknown id is the get_mut unwrap panic, modeled as none. -/
def runDrawFunction (w : NodeWorld) (view : Entity) (d : Drawable) :
    Option (List GpuCommand) :=
  if d.draw_function = w.draw_uber_function then DrawUber.draw w.draw_world view
  else none

/-- render.rs UberPassNode::run: write the staged uniform vector to the
uniform buffer on the command encoder, resolve the input view entity
(propagating the slot error), and when the view has both a ViewUber
target and an uber phase, begin a clear-to-black render pass on the
view's target texture view and invoke each drawable of the phase in
order.  Result: the recorded command stream and the node's Result; none
models a drawable-dispatch panic. -/
def UberPassNode.run (graph : RenderGraphContext) (w : NodeWorld) :
    Option (List GpuCommand × Except NodeRunError Unit) :=
  match getInputEntity graph with
  | Except.error e => some ([GpuCommand.writeUniformBuffer w.uber_meta_uniform], Except.error e)
  | Except.ok view =>
    match w.view_uber view, w.uber_phase view with
    | some vu, some phase =>
      match phase.mapM (runDrawFunction w view) with
      | none => none
      | some cmds =>
        some (GpuCommand.writeUniformBuffer w.uber_meta_uniform ::
                GpuCommand.beginRenderPass vu.view_uber_texture_view.texture true ::
                cmds.flatten,
              Except.ok ())
    | _, _ => some ([GpuCommand.writeUniformBuffer w.uber_meta_uniform], Except.ok ())

/-! Theorems. -/

/-- A command stream that starts with the uniform upload has the upload at
index 0 and every draw command at a strictly later index. -/
theorem upload_head_precedes_draws (u : List UberUniform) (tail : List GpuCommand) :
    (GpuCommand.writeUniformBuffer u :: tail).get? 0 =
        some (GpuCommand.writeUniformBuffer u) ∧
    ∀ i c, (GpuCommand.writeUniformBuffer u :: tail).get? i = some c →
      isDrawCommand c = true → 0 < i := by
  refine ⟨rfl, ?_⟩
  intro i c hc hd
  cases i with
  | zero =>
    have hcu : GpuCommand.writeUniformBuffer u = c := by
      simpa using hc
    rw [← hcu] at hd
    simp [isDrawCommand] at hd
  | succ n => exact Nat.succ_pos n

/-- C1: a node invocation whose view slot cannot be resolved returns the
propagated NodeRunError (the frame's graph execution fails), while an
invocation whose view entity resolves but carries neither a ViewUber
target nor an uber draw phase records no render pass (only the uniform
upload) and returns Ok. -/
theorem uber_c1 (w : NodeWorld) (g : RenderGraphContext) (v : Entity)
    (hg : g.input_view = none)
    (hu : w.view_uber v = none) (hp : w.uber_phase v = none) :
    UberPassNode.run g w =
      some ([GpuCommand.writeUniformBuffer w.uber_meta_uniform],
        Except.error NodeRunError.inputSlotError) ∧
    UberPassNode.run ⟨some v⟩ w =
      some ([GpuCommand.writeUniformBuffer w.uber_meta_uniform], Except.ok ()) := by
  constructor
  · simp [UberPassNode.run, getInputEntity, hg]
  · simp [UberPassNode.run, getInputEntity, hu, hp]

/-- C1 witness: a concrete world where the node input slot is unresolved,
and a concrete resolved view with neither component. -/
theorem uber_c1_witness :
    UberPassNode.run ⟨none⟩
        ⟨[], fun _ => none, fun _ => none, 0, ⟨0, 0, fun _ => none⟩⟩ =
      some ([GpuCommand.writeUniformBuffer []],
        Except.error NodeRunError.inputSlotError) ∧
    UberPassNode.run ⟨some 0⟩
        ⟨[], fun _ => none, fun _ => none, 0, ⟨0, 0, fun _ => none⟩⟩ =
      some ([GpuCommand.writeUniformBuffer []], Except.ok ()) :=
  uber_c1 ⟨[], fun _ => none, fun _ => none, 0, ⟨0, 0, fun _ => none⟩⟩
    ⟨none⟩ 0 rfl rfl rfl

/-- C2: every command stream UberPassNode::run records has the staged
uniform upload as its first command, so the upload strictly precedes
every draw command of the same frame. -/
theorem uber_c2 (g : RenderGraphContext) (w : NodeWorld)
    (cmds : List GpuCommand) (r : Except NodeRunError Unit)
    (h : UberPassNode.run g w = some (cmds, r)) :
    cmds.get? 0 = some (GpuCommand.writeUniformBuffer w.uber_meta_uniform) ∧
    ∀ i c, cmds.get? i = some c → isDrawCommand c = true → 0 < i := by
  have hshape : ∃ tail,
      cmds = GpuCommand.writeUniformBuffer w.uber_meta_uniform :: tail := by
    unfold UberPassNode.run at h
    split at h
    · simp only [Option.some.injEq, Prod.mk.injEq] at h
      exact ⟨_, h.1.symm⟩
    · split at h
      · split at h
        · exact Option.noConfusion h
        · simp only [Option.some.injEq, Prod.mk.injEq] at h
          exact ⟨_, h.1.symm⟩
      · simp only [Option.some.injEq, Prod.mk.injEq] at h
        exact ⟨_, h.1.symm⟩
  obtain ⟨tail, htail⟩ := hshape
  subst htail
  exact upload_head_precedes_draws w.uber_meta_uniform tail

/-- C2 witness: a concrete invocation with one view and one drawable whose
stream is upload, begin pass, pipeline, two bind groups, draw. -/
theorem uber_c2_witness :
    ([GpuCommand.writeUniformBuffer [],
      GpuCommand.beginRenderPass 1 true,
      GpuCommand.setRenderPipeline 7,
      GpuCommand.setBindGroup 0 13 [11],
      GpuCommand.setBindGroup 1 9 [],
      GpuCommand.draw 0 3 0 1] : List GpuCommand).get? 0 =
        some (GpuCommand.writeUniformBuffer []) ∧
    ∀ i c,
      ([GpuCommand.writeUniformBuffer [],
        GpuCommand.beginRenderPass 1 true,
        GpuCommand.setRenderPipeline 7,
        GpuCommand.setBindGroup 0 13 [11],
        GpuCommand.setBindGroup 1 9 [],
        GpuCommand.draw 0 3 0 1] : List GpuCommand).get? i = some c →
        isDrawCommand c = true → 0 < i :=
  uber_c2 ⟨some 0⟩
    ⟨[], fun _ => some ⟨1, ⟨1⟩⟩, fun _ => some [⟨5, 0, 0⟩], 5,
      ⟨7, 9, fun _ => some (11, 13)⟩⟩
    [GpuCommand.writeUniformBuffer [],
      GpuCommand.beginRenderPass 1 true,
      GpuCommand.setRenderPipeline 7,
      GpuCommand.setBindGroup 0 13 [11],
      GpuCommand.setBindGroup 1 9 [],
      GpuCommand.draw 0 3 0 1]
    (Except.ok ()) rfl

/-- C3: the flags word assigns bit 0 (value 1) to bloom, bit 1 (value 2)
to the Normal tonemap variant, bit 2 (value 4) to ACES, bit 3 (value 8)
to channel mixing, and the four bits are independent: every combination
of active effects is representable. -/
theorem uber_c3 :
    UberFlags.BLOOM = 1 ∧ UberFlags.NORMAL_TONEMAPPING = 2 ∧
    UberFlags.ACES_TONEMAPPING = 4 ∧ UberFlags.CHANNEL_MIXING = 8 ∧
    ∀ bloom normal aces mixing : Bool,
      (UberFlags.ofActive bloom normal aces mixing).testBit 0 = bloom ∧
      (UberFlags.ofActive bloom normal aces mixing).testBit 1 = normal ∧
      (UberFlags.ofActive bloom normal aces mixing).testBit 2 = aces ∧
      (UberFlags.ofActive bloom normal aces mixing).testBit 3 = mixing := by
  decide

/-- C4: the layout has exactly one entry, a fragment-only uniform slot at
binding 0, but its declared minimum binding size is the in-memory Rust
size of UberUniform (80 bytes), which differs from the 112-byte std140
layout of the block the code actually uploads (4-byte flags word padded
to 16, 48-byte bloom block, 48-byte padded 3-row matrix block). -/
theorem uber_c4 :
    uberViewLayoutEntries =
      [⟨0, ShaderStage.FRAGMENT,
        BindingType.buffer BufferBindingType.uniform false (some 80)⟩] ∧
    rustUberUniform.1 = 80 ∧ std140UberUniform.1 = 112 ∧
    rustUberUniform.1 ≠ std140UberUniform.1 := by
  decide

/-- C5: when the view uniform store has no entries, queue_meshes creates
no binding set (neither the shared config one nor any per-view one) and
leaves every view's draw list unchanged. -/
theorem uber_c5 (len draw_uber next_bg : Nat)
    (views : List (Entity × List Drawable)) (h : len = 0) :
    queue_meshes len draw_uber next_bg views = ⟨none, [], views⟩ := by
  subst h
  rfl

/-- C5 witness: a concrete frame with zero view uniforms. -/
theorem uber_c5_witness :
    queue_meshes 0 3 5 [(0, [])] = ⟨none, [], [(0, [])]⟩ :=
  uber_c5 0 3 5 [(0, [])] rfl

/-- queueViews at start index i0 gives view i the fresh bind group
bg + 1 + (i0 + i) and appends exactly one Drawable with draw_key i0 + i
and sort_key 0 to its phase. -/
theorem queueViews_get (draw_uber bg : Nat) (views : List (Entity × List Drawable)) :
    ∀ i0 i, (hi : i < views.length) →
      (queueViews draw_uber bg i0 views).1.get? i =
          some ((views.get ⟨i, hi⟩).1, bg + 1 + (i0 + i)) ∧
      (queueViews draw_uber bg i0 views).2.get? i =
          some ((views.get ⟨i, hi⟩).1,
            (views.get ⟨i, hi⟩).2 ++ [⟨draw_uber, i0 + i, 0⟩]) := by
  induction views with
  | nil =>
    intro i0 i hi
    exact absurd hi (Nat.not_lt_zero i)
  | cons v rest ih =>
    intro i0 i hi
    cases i with
    | zero => exact ⟨rfl, rfl⟩
    | succ n =>
      have hn : n < rest.length := Nat.lt_of_succ_lt_succ hi
      have h2 := ih (i0 + 1) n hn
      have e : i0 + 1 + n = i0 + (n + 1) := by omega
      rw [e] at h2
      exact h2

/-- queueViews preserves the number of views. -/
theorem queueViews_phases_length (draw_uber bg : Nat)
    (views : List (Entity × List Drawable)) :
    ∀ i0, (queueViews draw_uber bg i0 views).2.length = views.length := by
  induction views with
  | nil => intro i0; rfl
  | cons v rest ih =>
    intro i0
    exact congrArg (fun n => n + 1) (ih (i0 + 1))

/-- C6: when the skip condition is not taken, queue_meshes gives the i-th
view one fresh per-view bind group (ids allocated in creation order after
the shared config bind group) and appends exactly one Drawable with
draw_key i and sort_key 0 to that view's draw list; the set of views is
unchanged in length. -/
theorem uber_c6 (len draw_uber next_bg : Nat)
    (views : List (Entity × List Drawable))
    (h : 1 ≤ len) (i : Nat) (hi : i < views.length) :
    (queue_meshes len draw_uber next_bg views).view_bind_groups.get? i =
      some ((views.get ⟨i, hi⟩).1, next_bg + 1 + i) ∧
    (queue_meshes len draw_uber next_bg views).phases.get? i =
      some ((views.get ⟨i, hi⟩).1,
        (views.get ⟨i, hi⟩).2 ++ [⟨draw_uber, i, 0⟩]) ∧
    (queue_meshes len draw_uber next_bg views).phases.length = views.length := by
  have hq : queue_meshes len draw_uber next_bg views =
      ⟨some next_bg, (queueViews draw_uber next_bg 0 views).1,
        (queueViews draw_uber next_bg 0 views).2⟩ := by
    unfold queue_meshes
    rw [if_neg (by omega)]
  have h2 := queueViews_get draw_uber next_bg views 0 i hi
  rw [Nat.zero_add] at h2
  rw [hq]
  exact ⟨h2.1, h2.2, queueViews_phases_length draw_uber next_bg views 0⟩

/-- C6 witness: one view with an empty draw list; it gains exactly the
Drawable with draw_key 0 and sort_key 0 and the bind group created right
after the shared config bind group. -/
theorem uber_c6_witness :
    (queue_meshes 1 7 4 [(2, [])]).view_bind_groups.get? 0 = some (2, 5) ∧
    (queue_meshes 1 7 4 [(2, [])]).phases.get? 0 = some (2, [] ++ [⟨7, 0, 0⟩]) ∧
    (queue_meshes 1 7 4 [(2, [])]).phases.length = 1 := by
  have h := uber_c6 1 7 4 [(2, [])] (by decide) 0 (by decide)
  exact ⟨h.1, h.2.1, h.2.2⟩

/-- C7: prepare_uber leaves the uniform staging vector holding exactly the
one packed block for the frame, and packing preserves every bloom field
bit-exactly (threshold, intensity, scatter, clamp, and the four tint
components) as well as the channel-mix matrix. -/
theorem uber_c7 (cfg : UberUniform) (views : List (Entity × ExtractedView))
    (st : PrepareState) (b : Bloom) (cm : ChannelMixing) :
    (prepare_uber cfg views st).1.uber_meta_uniform = [cfg] ∧
    (uberBloomFromBloom b).threshold = b.threshold ∧
    (uberBloomFromBloom b).intensity = b.intensity ∧
    (uberBloomFromBloom b).scatter = b.scatter ∧
    (uberBloomFromBloom b).clamp = b.clamp ∧
    (uberBloomFromBloom b).tint =
      ⟨b.tint.red, b.tint.green, b.tint.blue, b.tint.alpha⟩ ∧
    (uberChannelMixingFromChannelMixing cm).matrix = mat3FromChannelMixing cm :=
  ⟨rfl, rfl, rfl, rfl, rfl, rfl, rfl⟩

/-- prepareViews inserts one ViewUber per view, in view order, each
holding some texture id and a texture view of that same texture. -/
theorem prepareViews_get (views : List (Entity × ExtractedView)) :
    ∀ cache next i, (hi : i < views.length) →
      ∃ t : Nat, (prepareViews views cache next).2.2.get? i =
        some ((views.get ⟨i, hi⟩).1, ⟨t, ⟨t⟩⟩) := by
  induction views with
  | nil =>
    intro cache next i hi
    exact absurd hi (Nat.not_lt_zero i)
  | cons v rest ih =>
    intro cache next i hi
    cases i with
    | zero =>
      exact ⟨(textureCacheGet cache next (uberTextureDescriptor v.2)).1, rfl⟩
    | succ n =>
      exact ih _ _ n (Nat.lt_of_succ_lt_succ hi)

/-- prepareViews inserts exactly one record per view. -/
theorem prepareViews_length (views : List (Entity × ExtractedView)) :
    ∀ cache next, (prepareViews views cache next).2.2.length = views.length := by
  induction views with
  | nil => intro cache next; rfl
  | cons v rest ih =>
    intro cache next
    exact congrArg (fun n => n + 1) (ih _ _)

/-- C8: prepare_uber requests each view's off-screen target from the
texture cache with a descriptor of exactly the view's pixel width and
height, depth 1, R8Unorm format and render-attachment plus sampled usage,
and attaches to the view's record the resulting texture together with a
view of that same texture. -/
theorem uber_c8 (cfg : UberUniform) (views : List (Entity × ExtractedView))
    (st : PrepareState) (i : Nat) (hi : i < views.length) :
    uberTextureDescriptor (views.get ⟨i, hi⟩).2 =
      ⟨(views.get ⟨i, hi⟩).2.width, (views.get ⟨i, hi⟩).2.height, 1, 1, 1,
        TextureDimension.d2, TextureFormat.r8Unorm,
        TextureUsage.RENDER_ATTACHMENT ||| TextureUsage.SAMPLED⟩ ∧
    (prepare_uber cfg views st).2.length = views.length ∧
    ∃ t : Nat, (prepare_uber cfg views st).2.get? i =
      some ((views.get ⟨i, hi⟩).1, ⟨t, ⟨t⟩⟩) := by
  refine ⟨rfl, ?_, ?_⟩
  · exact prepareViews_length views st.texture_cache st.next_texture_id
  · exact prepareViews_get views st.texture_cache st.next_texture_id i hi

/-- C8 witness: one 800x600 view; the descriptor is 800x600, depth 1,
R8Unorm, render-attachment plus sampled, and a ViewUber is attached. -/
theorem uber_c8_witness :
    uberTextureDescriptor (⟨800, 600⟩ : ExtractedView) =
      ⟨800, 600, 1, 1, 1, TextureDimension.d2, TextureFormat.r8Unorm,
        TextureUsage.RENDER_ATTACHMENT ||| TextureUsage.SAMPLED⟩ ∧
    (prepare_uber ⟨0, ⟨f32Zero, f32Zero, f32Zero, ⟨f32Zero, f32Zero, f32Zero, f32Zero⟩,
        f32Zero⟩, ⟨Mat3.identity⟩⟩ [(3, ⟨800, 600⟩)] ⟨[], [], 0⟩).2.length = 1 ∧
    ∃ t : Nat, (prepare_uber ⟨0, ⟨f32Zero, f32Zero, f32Zero,
        ⟨f32Zero, f32Zero, f32Zero, f32Zero⟩, f32Zero⟩, ⟨Mat3.identity⟩⟩
        [(3, ⟨800, 600⟩)] ⟨[], [], 0⟩).2.get? 0 = some (3, ⟨t, ⟨t⟩⟩) :=
  uber_c8 ⟨0, ⟨f32Zero, f32Zero, f32Zero, ⟨f32Zero, f32Zero, f32Zero, f32Zero⟩,
      f32Zero⟩, ⟨Mat3.identity⟩⟩ [(3, ⟨800, 600⟩)] ⟨[], [], 0⟩ 0 (by decide)

/-- C9: for a view whose uniform offset and bind group resolve, the draw
invocation records exactly: bind the pipeline, bind group 0 with the
view's dynamic uniform offset as the only offset, bind group 1 with an
empty offset list, and a single non-indexed draw of vertices 0..3 and
instances 0..1 - and nothing else. -/
theorem uber_c9 (w : DrawWorld) (view : Entity) (off bg : Nat)
    (h : w.view_params view = some (off, bg)) :
    DrawUber.draw w view =
      some [GpuCommand.setRenderPipeline w.pipeline,
            GpuCommand.setBindGroup 0 bg [off],
            GpuCommand.setBindGroup 1 w.uber_config_bind_group [],
            GpuCommand.draw 0 3 0 1] := by
  unfold DrawUber.draw
  rw [h]

/-- C9 witness: a concrete draw world and view. -/
theorem uber_c9_witness :
    DrawUber.draw ⟨7, 9, fun _ => some (11, 13)⟩ 0 =
      some [GpuCommand.setRenderPipeline 7,
            GpuCommand.setBindGroup 0 13 [11],
            GpuCommand.setBindGroup 1 9 [],
            GpuCommand.draw 0 3 0 1] :=
  uber_c9 ⟨7, 9, fun _ => some (11, 13)⟩ 0 11 13 rfl

/-- C10: the channel-mixing matrix has the rgb of the red color as row 0,
of the blue color as row 1, of the green color as row 2; for the default
configuration (red = RED, blue = BLUE, green = GREEN) the matrix is the
permutation that swaps the green and blue rows, not the identity. -/
theorem uber_c10 (cm : ChannelMixing) :
    (mat3FromChannelMixing cm).row0 = (Vec4.fromColor cm.red).xyz ∧
    (mat3FromChannelMixing cm).row1 = (Vec4.fromColor cm.blue).xyz ∧
    (mat3FromChannelMixing cm).row2 = (Vec4.fromColor cm.green).xyz ∧
    mat3FromChannelMixing ChannelMixing.default =
      ⟨⟨f32One, f32Zero, f32Zero⟩, ⟨f32Zero, f32Zero, f32One⟩,
        ⟨f32Zero, f32One, f32Zero⟩⟩ ∧
    mat3FromChannelMixing ChannelMixing.default ≠ Mat3.identity := by
  refine ⟨rfl, rfl, rfl, by decide, by decide⟩

end Postprocess
